import Mathlib

/-!
Verification of the CivicVoice Turf Engine
(`src/server/src/routes/turfs.js`).

The JavaScript source is shallowly embedded below.  Coordinates and all
numeric request parameters are modelled as exact rationals (`ℚ`); the
haversine distance, which uses transcendental functions, lives in `ℝ`.
The geometric algorithms (`clusterDoors`, `nearestNeighborRoute`) only
consume the distance through order comparisons, so they are written over
an arbitrary `LinearOrder` codomain and instantiated at the real-valued
haversine distance exactly as in the source.
-/

namespace CivicVoice

/-- A lat/lng pair, as used for centroids and turf centers. -/
structure Pt where
  lat : ℚ
  lng : ℚ
deriving DecidableEq

/-- A household ("door") as built by the auto-cut household aggregation
(`turfs.js` lines 108–124): first-seen coordinates and address fields,
plus the accumulated member voter ids. -/
structure Door where
  id : String
  lat : ℚ
  lng : ℚ
  address : String
  city : String
  zip : String
  ncids : List String
deriving DecidableEq

/-- One partition group as produced by `clusterDoors` or
`groupByPrecinct`: member doors, the union of member voter ids, and the
turf center.  `pname` is the extra `name` field only the precinct path
sets. -/
structure Group where
  doors : List Door
  ncids : List String
  center : Pt
  pname : Option String
deriving DecidableEq

/-! ## Nearest-centroid selection

`turfs.js` lines 220–233 and 256–267: iterate over the centroids with
`minDist = Infinity; nearest = 0`, replacing the best index on a strict
`dist < minDist`.  The running minimum is modelled as `Option α`
(`none` = `Infinity`, which every distance value beats). -/

/-- The centroid scan: `rest` are the centroids not yet examined, `i` the
index of the next one, `best` the best index so far and `m` the best
distance so far (`none` plays the role of `Infinity`). -/
def nearestAux {α : Type} [LinearOrder α] (dist : Door → Pt → α) (d : Door) :
    List Pt → ℕ → ℕ → Option α → ℕ
  | [], _, best, _ => best
  | c :: rest, i, best, m =>
    let v := dist d c
    if (match m with
        | none => true
        | some mv => decide (v < mv)) then
      nearestAux dist d rest (i + 1) i (some v)
    else
      nearestAux dist d rest (i + 1) best m

/-- Index of the nearest centroid to door `d` (first strict minimum wins,
starting from `nearest = 0`, `minDist = Infinity`). -/
def nearestIdx {α : Type} [LinearOrder α] (dist : Door → Pt → α) (d : Door)
    (cs : List Pt) : ℕ :=
  nearestAux dist d cs 0 0 none

/-- One assignment pass (`turfs.js` lines 218–233 / 255–267): bucket the
doors by nearest centroid into `k` clusters, keeping door order. -/
def assignClusters {α : Type} [LinearOrder α] (dist : Door → Pt → α)
    (doors : List Door) (k : ℕ) (cs : List Pt) : List (List Door) :=
  (List.range k).map (fun i => doors.filter (fun d => nearestIdx dist d cs == i))

/-- Centroid update for one cluster (`turfs.js` lines 236–241): the
arithmetic mean of the members, or `(0, 0)` for an empty cluster. -/
def clusterMean (c : List Door) : Pt :=
  if c = [] then ⟨0, 0⟩
  else ⟨(c.map Door.lat).sum / c.length, (c.map Door.lng).sum / c.length⟩

/-- Update all centroids from the clusters. -/
def updateCentroids (clusters : List (List Door)) : List Pt :=
  clusters.map clusterMean

/-- JavaScript `Math.abs` on exact rationals. -/
def qAbs (x : ℚ) : ℚ := if x < 0 then -x else x

/-- Convergence check (`turfs.js` lines 244–247): some centroid moved by
more than `0.0001` in latitude or longitude. -/
def movedCheck (old new : List Pt) : Bool :=
  (old.zip new).any (fun p =>
    decide ((1 : ℚ)/10000 < qAbs (p.1.lat - p.2.lat)) ||
    decide ((1 : ℚ)/10000 < qAbs (p.1.lng - p.2.lng)))

/-- The k-means iteration (`turfs.js` lines 216–252).  Each step performs
one assignment and one centroid update; the loop stops early when no
centroid moved (note the source updates `centroids` before testing
`moved`, so the returned centroids are the freshly updated ones), and
after `fuel` (= 50) iterations otherwise. -/
def kloop {α : Type} [LinearOrder α] (dist : Door → Pt → α) (doors : List Door)
    (k : ℕ) : List Pt → ℕ → List Pt
  | cs, 0 => cs
  | cs, fuel + 1 =>
    if movedCheck cs (updateCentroids (assignClusters dist doors k cs)) then
      kloop dist doors k (updateCentroids (assignClusters dist doors k cs)) fuel
    else updateCentroids (assignClusters dist doors k cs)

/-- The centroids in force during the final assignment pass of
`clusterDoors`: seed with the coordinates of the first `k` doors of the
shuffled copy, then run up to 50 iterations. -/
def clusterFinalCentroids {α : Type} [LinearOrder α] (dist : Door → Pt → α)
    (doors : List Door) (k : ℕ) (shuffled : List Door) : List Pt :=
  kloop dist doors k ((shuffled.take k).map (fun d => (⟨d.lat, d.lng⟩ : Pt))) 50

/-- `clusterDoors(doors, k)` (`turfs.js` lines 199–276).  The random
shuffle of line 211 is the one source of nondeterminism; it is passed in
as the `shuffled` argument (theorems quantify over permutations of
`doors`).  After the loop, a final assignment pass is made, empty
clusters are dropped, and each kept cluster is paired with
`centroids[i]` where `i` is its index in the *filtered* list — exactly
as in the source. -/
def clusterDoors {α : Type} [LinearOrder α] (dist : Door → Pt → α)
    (doors : List Door) (k : ℕ) (shuffled : List Door) : List Group :=
  if doors = [] then []
  else if doors.length ≤ k then
    doors.map (fun d => { doors := [d], ncids := d.ncids,
                          center := ⟨d.lat, d.lng⟩, pname := none })
  else
    ((assignClusters dist doors k
        (clusterFinalCentroids dist doors k shuffled)).filter
      (fun c => !c.isEmpty)).mapIdx (fun i c =>
      { doors := c, ncids := c.flatMap Door.ncids,
        center := (clusterFinalCentroids dist doors k shuffled).getD i ⟨0, 0⟩,
        pname := none })

/-! ## Haversine distance (`turfs.js` lines 281–290) -/

/-- Two-argument arctangent with the quadrant conventions of JavaScript
`Math.atan2`. -/
noncomputable def atan2 (y x : ℝ) : ℝ :=
  if 0 < x then Real.arctan (y / x)
  else if x < 0 then
    (if 0 ≤ y then Real.arctan (y / x) + Real.pi
     else Real.arctan (y / x) - Real.pi)
  else
    (if 0 < y then Real.pi / 2
     else if y < 0 then -(Real.pi / 2)
     else 0)

/-- `haversineDistance(lat1, lng1, lat2, lng2)`: great-circle distance in
meters, Earth radius 6 371 000 m, half-angle sine-squared form. -/
noncomputable def haversineDistance (lat1 lng1 lat2 lng2 : ℝ) : ℝ :=
  let R : ℝ := 6371000
  let dLat := (lat2 - lat1) * Real.pi / 180
  let dLng := (lng2 - lng1) * Real.pi / 180
  let a := Real.sin (dLat / 2) ^ 2 +
    Real.cos (lat1 * Real.pi / 180) * Real.cos (lat2 * Real.pi / 180) *
    Real.sin (dLng / 2) ^ 2
  let c := 2 * atan2 (Real.sqrt a) (Real.sqrt (1 - a))
  R * c

/-- The distance actually fed to the clusterer: `haversineDistance`
applied to a door and a centroid (`turfs.js` lines 225 and 260). -/
noncomputable def doorDist (d : Door) (c : Pt) : ℝ :=
  haversineDistance d.lat d.lng c.lat c.lng

/-- The geographic clusterer as run by the source: `clusterDoors` with
the haversine metric. -/
noncomputable def clusterDoorsH (doors : List Door) (k : ℕ)
    (shuffled : List Door) : List Group :=
  clusterDoors doorDist doors k shuffled

/-- Final-pass centroids of the haversine clusterer. -/
noncomputable def clusterFinalCentroidsH (doors : List Door) (k : ℕ)
    (shuffled : List Door) : List Pt :=
  clusterFinalCentroids doorDist doors k shuffled

/-! ## Route optimizer (`turfs.js` lines 576–602) -/

/-- One address row of the route query (`turfs.js` lines 519–531):
`DISTINCT ON (household_id)` over the turf's geocoded members. -/
structure Addr where
  household_id : Option String
  street_address : String
  city : String
  zip_code : String
  lat : ℚ
  lng : ℚ
deriving DecidableEq

/-- Scan of the `remaining` set (`turfs.js` lines 582–598): starting from
candidate `best`, a later point replaces it only on a strict
`dist < minDist`; the chosen point is removed, every other point keeps
its position. Returns the chosen point and the rest. -/
def extractMin {α : Type} [LinearOrder α] (d : Addr → α) (best : Addr) :
    List Addr → Addr × List Addr
  | [] => (best, [])
  | y :: ys =>
    if d y < d best then
      let r := extractMin d y ys
      (r.1, best :: r.2)
    else
      let r := extractMin d best ys
      (r.1, y :: r.2)

/-- The greedy walk (`turfs.js` lines 579–599): the route so far always
ends at `cur`; while points remain, move to the nearest one.  The
`while (remaining.size > 0)` loop runs exactly once per remaining point,
which the `fuel` argument (called with `rem.length`) makes structural. -/
def nnGo {α : Type} [LinearOrder α] (dist : Addr → Addr → α) :
    ℕ → Addr → List Addr → List Addr
  | _, cur, [] => [cur]
  | 0, cur, _ :: _ => [cur]
  | fuel + 1, cur, r :: rs =>
    cur :: nnGo dist fuel (extractMin (dist cur) r rs).1
      (extractMin (dist cur) r rs).2

/-- `nearestNeighborRoute(points)` over an arbitrary metric: returns the
input unchanged for `length ≤ 1`, otherwise starts at the first point
and repeatedly visits the nearest unvisited one. -/
def nnRoute {α : Type} [LinearOrder α] (dist : Addr → Addr → α)
    (points : List Addr) : List Addr :=
  if points.length ≤ 1 then points
  else
    match points with
    | [] => []
    | p :: rest => nnGo dist rest.length p rest

/-- Haversine distance between two route points (`turfs.js` line 588). -/
noncomputable def addrDist (a b : Addr) : ℝ :=
  haversineDistance a.lat a.lng b.lat b.lng

/-- `nearestNeighborRoute` as run by the source (haversine metric). -/
noncomputable def nearestNeighborRoute (points : List Addr) : List Addr :=
  nnRoute addrDist points

/-- Total route distance (`turfs.js` lines 541–547): the sum of
consecutive-leg haversine distances. -/
noncomputable def totalDistance (route : List Addr) : ℝ :=
  (route.zip route.tail).foldl (fun acc p => acc + addrDist p.1 p.2) 0

/-! ## Data model: rows of the tables the turf routes touch

The handlers in `turfs.js` read `lists`, `list_voters` joined with
`voters`, and `turfs`.  A `MembershipRow` is one `list_voters` row
carried together with the joined voter columns the queries select
(denormalised join, since the voter side is read-only here). -/

/-- One stop of a computed route (`turfs.js` lines 550–553): the address
row plus its 1-indexed visiting order. -/
structure RouteStop where
  order : ℕ
  household_id : Option String
  street_address : String
  city : String
  zip_code : String
  lat : ℚ
  lng : ℚ
deriving DecidableEq

/-- The cached `route_data` JSON (`turfs.js` lines 549–556). -/
structure RouteData where
  route : List RouteStop
  distance : ℤ
  estimatedDuration : ℤ
deriving DecidableEq

/-- A row of `lists`. -/
structure ListRow where
  id : ℕ
  user_id : ℕ
  name : String
deriving DecidableEq

/-- A GeoJSON polygon as sent to `POST /api/turfs/manual`: `coordinates`
is `none` when the field is absent. -/
structure Polygon where
  ptype : String
  coordinates : Option (List (List (ℚ × ℚ)))
deriving DecidableEq

/-- One `list_voters` row joined with its voter: `household_id`,
`turf_id` and `location` are nullable; `location` is `(lat, lng)`. -/
structure MembershipRow where
  list_id : ℕ
  ncid : String
  household_id : Option String
  sort_order : ℕ
  turf_id : Option ℕ
  street_address : String
  city : String
  zip_code : String
  precinct_name : Option String
  location : Option (ℚ × ℚ)
deriving DecidableEq

/-- A row of `turfs`. -/
structure TurfRow where
  id : ℕ
  user_id : ℕ
  list_id : ℕ
  name : String
  description : Option String
  voter_count : ℕ
  door_count : ℕ
  estimated_time_minutes : ℕ
  center : Pt
  boundary : Option Polygon
  route_data : Option RouteData
deriving DecidableEq

/-- The turf-related database state.  `nextTurfId` models the serial id
the INSERTs return. -/
structure Db where
  lists : List ListRow
  memberships : List MembershipRow
  turfs : List TurfRow
  nextTurfId : ℕ
deriving DecidableEq

/-- What a turf INSERT returns (`RETURNING id, name, voter_count,
door_count, estimated_time_minutes`), plus the `center` the handler
spreads into its response. -/
structure CreatedTurf where
  id : ℕ
  name : String
  voter_count : ℕ
  door_count : ℕ
  estimated_time_minutes : ℕ
  center : Pt
deriving DecidableEq

/-- The responses the turf handlers send. `okEmptyRoute` is the literal
`{route: [], distance: 0, duration: 0}` early return of line 534 (note
its `duration` key differs from the cached shape's
`estimatedDuration`). -/
inductive ApiResponse where
  | badRequest (msg : String)
  | notFound (msg : String)
  | okAutoCut (turfsCreated : ℕ) (turfs : List CreatedTurf)
  | okManual (t : CreatedTurf) (center : Pt)
  | okRoute (rd : RouteData)
  | okEmptyRoute
  | okDelete
deriving DecidableEq

/-! ## Auto-cut (`turfs.js` lines 67–194) -/

/-- JavaScript truthiness of a nullable string (`if (v.household_id)`,
`filter(h => h)`): null and the empty string are falsy. -/
def truthyStr : Option String → Bool
  | none => false
  | some s => !(s == "")

/-- One row of the auto-cut voter query (`turfs.js` lines 87–99): the
list's members that have a non-null location. -/
structure VoterRow where
  ncid : String
  household_id : Option String
  street_address : String
  city : String
  zip_code : String
  lat : ℚ
  lng : ℚ
  precinct_name : Option String
deriving DecidableEq

/-- The voter query: members of list `lid` with a non-null location. -/
def listVoters (db : Db) (lid : ℕ) : List VoterRow :=
  db.memberships.filterMap (fun m =>
    match m.location, m.list_id == lid with
    | some loc, true =>
      some ⟨m.ncid, m.household_id, m.street_address, m.city, m.zip_code,
            loc.1, loc.2, m.precinct_name⟩
    | _, _ => none)

/-- Append `ncid` to the household with key `hid`. -/
def pushNcid (hs : List Door) (hid : String) (ncid : String) : List Door :=
  hs.map (fun h => if h.id = hid then { h with ncids := h.ncids ++ [ncid] } else h)

/-- The household aggregation (`turfs.js` lines 108–124): walk the voter
rows in order; a voter with a truthy household key creates the household
on first sight (keeping first-seen coordinates and address) and is then
appended to its `ncids`; other voters are skipped.  The `Map`'s
insertion order is the list order. -/
def buildHouseholds (voters : List VoterRow) : List Door :=
  voters.foldl (fun hs v =>
    match v.household_id with
    | none => hs
    | some hid =>
      if hid = "" then hs
      else
        let hs1 := if hs.any (fun h => h.id == hid) then hs
                   else hs ++ [⟨hid, v.lat, v.lng, v.street_address, v.city,
                                v.zip_code, []⟩]
        pushNcid hs1 hid v.ncid) []

/-- `numTurfs = Math.max(1, Math.ceil(doors.length / doors_per_turf))`
(`turfs.js` line 127). -/
def autoCutK (doorCount : ℕ) (dpt : ℚ) : ℤ :=
  max 1 ⌈(doorCount : ℚ) / dpt⌉

/-- First-occurrence distinct keys (used to model SQL `DISTINCT` /
`GROUP BY` over result rows; SQL leaves the order unspecified, row order
is the choice made here — no claim depends on it). -/
def distinctKeys (l : List (Option String)) : List (Option String) :=
  l.foldl (fun acc x => if acc.contains x then acc else acc ++ [x]) []

/-- `groupByPrecinct` (`turfs.js` lines 295–315), with its SQL
aggregation modelled over the same joined rows: one group per distinct
`precinct_name` among the geocoded members; `households` is
`array_agg(DISTINCT lv.household_id)` (nulls included, then dropped by
the JS `filter(h => h)`); `ncids` collects every member row; the center
averages all member coordinates.  A precinct door is the bare
`{ id: h }` object, so the remaining `Door` fields are defaulted. -/
def groupByPrecinct (voters : List VoterRow) : List Group :=
  (distinctKeys (voters.map VoterRow.precinct_name)).map (fun p =>
    let members := voters.filter (fun v => v.precinct_name == p)
    { doors := ((distinctKeys (members.map VoterRow.household_id)).filter
        (fun h => truthyStr h)).map (fun h =>
          { id := h.getD "", lat := 0, lng := 0, address := "", city := "",
            zip := "", ncids := [] }),
      ncids := members.map VoterRow.ncid,
      center := ⟨(members.map VoterRow.lat).sum / members.length,
                 (members.map VoterRow.lng).sum / members.length⟩,
      pname := p })

/-- Name of the `i`-th auto-cut turf (0-based `i`). -/
def mkTurfName (listName : String) (i : ℕ) : String :=
  listName ++ " - Turf " ++ toString (i + 1)

/-- Description of an auto-cut turf. -/
def mkTurfDescription (n : ℕ) : String :=
  "Auto-generated turf with " ++ toString n ++ " doors"

/-- `UPDATE list_voters SET turf_id = tid WHERE list_id = lid AND ncid =
ANY(ncids)` (`turfs.js` lines 171–175 and 399–403). -/
def assignTurfIds (ms : List MembershipRow) (tid lid : ℕ)
    (ncids : List String) : List MembershipRow :=
  ms.map (fun m =>
    if m.list_id = lid ∧ m.ncid ∈ ncids then { m with turf_id := some tid }
    else m)

/-- The auto-cut creation loop (`turfs.js` lines 140–182): one turf row
per group, `voter_count = ncids.length`, `door_count = doors.length`,
`estimated_time_minutes = Math.round(3 · doors.length)` (exactly
`3 · doors.length`), then the member assignment (skipped when `ncids` is
empty, which changes nothing either way). -/
def createTurfsGo (u lid : ℕ) (listName : String) :
    List Group → ℕ → Db → List CreatedTurf × Db
  | [], _, db => ([], db)
  | g :: gs, i, db =>
    let tid := db.nextTurfId
    let row : TurfRow :=
      { id := tid, user_id := u, list_id := lid,
        name := mkTurfName listName i,
        description := some (mkTurfDescription g.doors.length),
        voter_count := g.ncids.length, door_count := g.doors.length,
        estimated_time_minutes := 3 * g.doors.length, center := g.center,
        boundary := none, route_data := none }
    let db1 : Db :=
      { db with
        turfs := db.turfs ++ [row]
        nextTurfId := tid + 1
        memberships := if g.ncids = [] then db.memberships
                       else assignTurfIds db.memberships tid lid g.ncids }
    let rest := createTurfsGo u lid listName gs (i + 1) db1
    (⟨tid, row.name, row.voter_count, row.door_count,
      row.estimated_time_minutes, g.center⟩ :: rest.1, rest.2)

/-- `POST /api/turfs/auto-cut` (`turfs.js` lines 67–194).  `shuffled` is
the outcome of the random shuffle inside `clusterDoors` (a permutation
of the aggregated doors).  The JS falsiness check `!list_id` also fires
on `0`. -/
noncomputable def autoCut (userId : ℕ) (list_id : Option ℕ)
    (doors_per_turf : ℚ) (method : String) (shuffled : List Door)
    (db : Db) : ApiResponse × Db :=
  match list_id with
  | none => (.badRequest "list_id is required", db)
  | some lid =>
    if lid = 0 then (.badRequest "list_id is required", db)
    else
      match db.lists.find? (fun l => l.id == lid && l.user_id == userId) with
      | none => (.notFound "List not found", db)
      | some list =>
        let voters := listVoters db lid
        if voters = [] then
          (.badRequest
            "No geocoded voters in this list. Please geocode addresses first.",
            db)
        else
          let doors := buildHouseholds voters
          let k := (autoCutK doors.length doors_per_turf).toNat
          let groups :=
            if method = "cluster" ∨ method = "grid" then
              clusterDoorsH doors k shuffled
            else if method = "precinct" then
              groupByPrecinct voters
            else []
          let created := createTurfsGo userId lid list.name groups 0 db
          (.okAutoCut created.1.length created.1, created.2)

/-! ## Manual turf (`turfs.js` lines 321–414)

The PostGIS point-in-polygon test (`ST_Within`) and polygon centroid
(`ST_Centroid`) are external to this core; they enter as the oracle
parameters `inPoly` and `polyCentroid`. -/

/-- The voters-in-polygon query (`turfs.js` lines 342–352): members of
the list with a non-null location inside the polygon. -/
def votersWithin (db : Db) (lid : ℕ) (p : Polygon)
    (inPoly : Polygon → ℚ × ℚ → Bool) : List MembershipRow :=
  db.memberships.filter (fun m =>
    m.list_id == lid &&
    (match m.location with
     | some loc => inPoly p loc
     | none => false))

/-- `POST /api/turfs/manual`. -/
def createManual (userId : ℕ) (list_id : Option ℕ) (name : Option String)
    (description : Option String) (polygon : Option Polygon)
    (inPoly : Polygon → ℚ × ℚ → Bool) (polyCentroid : Polygon → Pt)
    (db : Db) : ApiResponse × Db :=
  match list_id, polygon with
  | none, _ => (.badRequest "list_id and polygon are required", db)
  | _, none => (.badRequest "list_id and polygon are required", db)
  | some lid, some p =>
    if lid = 0 then (.badRequest "list_id and polygon are required", db)
    else if p.ptype ≠ "Polygon" ∨ p.coordinates = none then
      (.badRequest "Invalid polygon format. Expected GeoJSON Polygon.", db)
    else
      match db.lists.find? (fun l => l.id == lid && l.user_id == userId) with
      | none => (.notFound "List not found", db)
      | some list =>
        let votersInPolygon := votersWithin db lid p inPoly
        if votersInPolygon = [] then
          (.badRequest "No voters found within the specified polygon", db)
        else
          let uniqueHouseholds := distinctKeys
            ((votersInPolygon.map MembershipRow.household_id).filter
              (fun h => truthyStr h))
          let centroid := polyCentroid p
          let tid := db.nextTurfId
          let row : TurfRow :=
            { id := tid, user_id := userId, list_id := lid,
              name := (match name with
                       | some s => if s = "" then list.name ++ " - Manual Turf"
                                   else s
                       | none => list.name ++ " - Manual Turf"),
              description := description,
              voter_count := votersInPolygon.length,
              door_count := uniqueHouseholds.length,
              estimated_time_minutes := 3 * uniqueHouseholds.length,
              center := centroid, boundary := some p, route_data := none }
          let ncids := votersInPolygon.map MembershipRow.ncid
          (.okManual ⟨tid, row.name, row.voter_count, row.door_count,
              row.estimated_time_minutes, centroid⟩ centroid,
           { db with
             turfs := db.turfs ++ [row]
             nextTurfId := tid + 1
             memberships := assignTurfIds db.memberships tid lid ncids })

/-! ## Route endpoint (`turfs.js` lines 503–571) -/

/-- The turf's geocoded member rows (`WHERE lv.turf_id = $1 AND
v.location IS NOT NULL`; note: no list or user restriction). -/
def routeRows (db : Db) (tid : ℕ) : List MembershipRow :=
  db.memberships.filter (fun m => m.turf_id == some tid && m.location.isSome)

/-- The `ORDER BY lv.household_id, lv.sort_order` ordering (ascending,
SQL default NULLS LAST). -/
def addrKeyLe (a b : MembershipRow) : Bool :=
  match a.household_id, b.household_id with
  | none, none => decide (a.sort_order ≤ b.sort_order)
  | none, some _ => false
  | some _, none => true
  | some x, some y =>
    if x = y then decide (a.sort_order ≤ b.sort_order) else decide (x < y)

/-- Sorting used to model SQL `ORDER BY` (insertion sort; SQL does not
specify the algorithm, only the resulting order). -/
def insertSorted {α : Type} (le : α → α → Bool) (x : α) : List α → List α
  | [] => [x]
  | y :: ys => if le x y then x :: y :: ys else y :: insertSorted le x ys

/-- Sort a list by the given boolean order. -/
def sortBy {α : Type} (le : α → α → Bool) (l : List α) : List α :=
  l.foldr (insertSorted le) []

/-- `DISTINCT ON (household_id)`: keep the first row of each household
key in the sorted order (SQL groups NULLs together); `seen` accumulates
the keys already emitted. -/
def dedupByHousehold (seen : List (Option String)) :
    List MembershipRow → List MembershipRow
  | [] => []
  | m :: ms =>
    if seen.contains m.household_id then dedupByHousehold seen ms
    else m :: dedupByHousehold (m.household_id :: seen) ms

/-- The address query of the route endpoint (`turfs.js` lines 519–531). -/
def turfAddresses (db : Db) (tid : ℕ) : List Addr :=
  (dedupByHousehold [] (sortBy addrKeyLe (routeRows db tid))).map (fun m =>
    { household_id := m.household_id, street_address := m.street_address,
      city := m.city, zip_code := m.zip_code,
      lat := (m.location.getD (0, 0)).1, lng := (m.location.getD (0, 0)).2 })

/-- Route computation (`turfs.js` lines 538–556): nearest-neighbor
order, 1-indexed stops, `Math.round`ed total distance, and the duration
estimate `Math.round(3 · stops + distance / 80)`. -/
noncomputable def computeRouteData (addresses : List Addr) : RouteData :=
  let route := nearestNeighborRoute addresses
  let td := totalDistance route
  { route := route.mapIdx (fun i a =>
      { order := i + 1, household_id := a.household_id,
        street_address := a.street_address, city := a.city,
        zip_code := a.zip_code, lat := a.lat, lng := a.lng }),
    distance := round td,
    estimatedDuration := round ((route.length : ℝ) * 3 + td / 80) }

/-- `GET /api/turfs/:id/route` (`turfs.js` lines 503–571): a cached
`route_data` is returned as-is with no state change; otherwise the route
is computed and, when the turf has at least one address, written back
(the zero-address early return of line 534 caches nothing). -/
noncomputable def getRoute (userId tid : ℕ) (db : Db) : ApiResponse × Db :=
  match db.turfs.find? (fun t => t.id == tid && t.user_id == userId) with
  | none => (.notFound "Turf not found", db)
  | some turf =>
    match turf.route_data with
    | some rd => (.okRoute rd, db)
    | none =>
      let addresses := turfAddresses db tid
      if addresses = [] then (.okEmptyRoute, db)
      else
        let rd := computeRouteData addresses
        (.okRoute rd,
         { db with turfs := db.turfs.map (fun t =>
            if t.id = tid then { t with route_data := some rd } else t) })

/-- `DELETE /api/turfs/:id` (`turfs.js` lines 608–628): first clear
`turf_id` on every `list_voters` row referencing the turf (no user or
list restriction), then delete the turf row owned by the caller, and
report success unconditionally. -/
def deleteTurf (userId tid : ℕ) (db : Db) : ApiResponse × Db :=
  let db1 : Db := { db with memberships := db.memberships.map (fun m =>
    if m.turf_id = some tid then { m with turf_id := none } else m) }
  let db2 : Db := { db1 with turfs := db1.turfs.filter (fun t =>
    !(t.id == tid && t.user_id == userId)) }
  (.okDelete, db2)

/-- The distance formula as the spec words it (§4.2): great-circle
distance in meters with Earth radius 6 371 000 m, half-angle
sine-squared (haversine) form, two (lat, lng) pairs in degrees. -/
noncomputable def haversineSpecForm (lat1 lng1 lat2 lng2 : ℝ) : ℝ :=
  let hav := Real.sin ((lat2 - lat1) * Real.pi / 180 / 2) ^ 2 +
    Real.cos (lat1 * Real.pi / 180) * Real.cos (lat2 * Real.pi / 180) *
    Real.sin ((lng2 - lng1) * Real.pi / 180 / 2) ^ 2
  6371000 * (2 * atan2 (Real.sqrt hav) (Real.sqrt (1 - hav)))

/-- The exact rational surrogate distance on the equator window. -/
def qDist (d : Door) (c : Pt) : ℚ := qAbs (d.lng - c.lng)

/-- A centroid inside the equator window. -/
def onEqPt (c : Pt) : Prop := c.lat = 0 ∧ 0 ≤ c.lng ∧ c.lng < 180

/-- A door inside the equator window. -/
def onEqDoor (d : Door) : Prop := d.lat = 0 ∧ 0 ≤ d.lng ∧ d.lng < 180

instance (c : Pt) : Decidable (onEqPt c) := by
  unfold onEqPt; infer_instance

instance (d : Door) : Decidable (onEqDoor d) := by
  unfold onEqDoor; infer_instance

/-! ## Concrete data used in the claim evaluations -/

instance : Inhabited TurfRow :=
  ⟨⟨0, 0, 0, "", none, 0, 0, 0, ⟨0, 0⟩, none, none⟩⟩

/-- Equatorial doors for the concrete clusterer run: two at longitude
50, one at 60, one at 62 (voter ids A–D, one per door). -/
def cexD1 : Door := ⟨"H1", 0, 50, "1 A St", "Town", "11111", ["A"]⟩

/-- Second door at longitude 50. -/
def cexD2 : Door := ⟨"H2", 0, 50, "2 A St", "Town", "11111", ["B"]⟩

/-- Door at longitude 60. -/
def cexD3 : Door := ⟨"H3", 0, 60, "3 A St", "Town", "11111", ["C"]⟩

/-- Door at longitude 62. -/
def cexD4 : Door := ⟨"H4", 0, 62, "4 A St", "Town", "11111", ["D"]⟩

/-- The four doors, also used as the shuffle outcome. -/
def cexDoors : List Door := [cexD1, cexD2, cexD3, cexD4]

/-- Seed centroids: coordinates of the first three doors. -/
def cexCs0 : List Pt := [⟨0, 50⟩, ⟨0, 50⟩, ⟨0, 60⟩]

/-- Centroids after one update (cluster 1 is empty, so its centroid is
reset to the origin), which the loop then reports as converged. -/
def cexCs1 : List Pt := [⟨0, 50⟩, ⟨0, 0⟩, ⟨0, 61⟩]

/-- The stable assignment: cluster 0 = the two doors at 50, cluster 1
empty, cluster 2 = the doors at 60 and 62. -/
def cexCl0 : List (List Door) := [[cexD1, cexD2], [], [cexD3, cexD4]]

/-- A geocoded list member without a household key, in precinct P-01
(C1). -/
def c1Member : MembershipRow :=
  ⟨1, "V1", none, 0, none, "5 B St", "Town", "11111", some "P-01",
   some (10, 20)⟩

/-- Database for the C1 counterexample: one list, one geocoded
household-less voter, no turfs yet. -/
def c1Db : Db := ⟨[⟨1, 1, "My List"⟩], [c1Member], [], 7⟩

/-- A geocoded member with a household key (C1 witness). -/
def c1wMember : MembershipRow :=
  ⟨2, "V2", some "HH1", 0, none, "7 C St", "Town", "11111", some "P-02",
   some (11, 21)⟩

/-- Database for the C1 witness run. -/
def c1wDb : Db := ⟨[⟨2, 1, "L2"⟩], [c1wMember], [], 3⟩

/-- A non-Polygon GeoJSON value (C6). -/
def badPoly : Polygon := ⟨"Point", none⟩

/-- A well-formed polygon (C6). -/
def okPoly : Polygon := ⟨"Polygon", some [[(0, 0), (0, 1), (1, 1), (0, 0)]]⟩

/-- Database for the C6 witness: one list, no members. -/
def c6Db : Db := ⟨[⟨3, 1, "L3"⟩], [], [], 1⟩

/-- Database for the C7 no-geocoded-voters case: a list with no
geocoded members. -/
def c7aDb : Db := ⟨[⟨4, 1, "L4"⟩], [], [], 1⟩

/-- A geocoded member lacking a household key (C7). -/
def c7bMember : MembershipRow :=
  ⟨5, "V3", none, 0, none, "9 D St", "Town", "11111", none, some (1, 2)⟩

/-- Database for the C7 zero-households case. -/
def c7bDb : Db := ⟨[⟨5, 1, "L5"⟩], [c7bMember], [], 1⟩

/-- A member assigned to turf 5 (C8). -/
def c8Member : MembershipRow :=
  ⟨6, "V4", some "HH2", 0, some 5, "2 E St", "Town", "11111", none,
   some (35, -80)⟩

/-- Database for the C8 witness. -/
def c8Db : Db := ⟨[⟨6, 1, "L6"⟩], [c8Member],
  [⟨5, 1, 6, "T5", none, 1, 1, 3, ⟨35, -80⟩, none, none⟩], 9⟩

/-- Database for the C10 witness: turf 5 belongs to user 2, membership
rows reference it. -/
def c10Db : Db := ⟨[⟨6, 2, "L6"⟩], [c8Member],
  [⟨5, 2, 6, "T5", none, 1, 1, 3, ⟨35, -80⟩, none, none⟩], 9⟩

/-- Database for the C9 counterexample: turf 1 has no cached route and
no members at all. -/
def c9Db : Db := ⟨[], [], [⟨1, 1, 1, "T1", none, 0, 0, 0, ⟨0, 0⟩, none, none⟩], 2⟩

/-- A stored route value (C9 witness). -/
def c9Rd : RouteData := ⟨[⟨1, some "HH3", "4 F St", "Town", "11111", 35, -80⟩], 120, 5⟩

/-- Database for the C9 cached-route witness: turf 2 carries `c9Rd`. -/
def c9cDb : Db := ⟨[], [],
  [⟨2, 1, 1, "T2", none, 1, 1, 3, ⟨35, -80⟩, none, some c9Rd⟩], 3⟩

/-- A member of turf 3 with a location (C9 witness, uncached side). -/
def c9uMember : MembershipRow :=
  ⟨7, "V5", some "HH4", 0, some 3, "6 G St", "Town", "11111", none,
   some (35, -80)⟩

/-- Database for the C9 first-request witness: turf 3 uncached with one
geocoded member. -/
def c9uDb : Db := ⟨[⟨7, 1, "L7"⟩], [c9uMember],
  [⟨3, 1, 7, "T3", none, 1, 1, 3, ⟨35, -80⟩, none, none⟩], 4⟩

/-- A route point (C3 witness). -/
def cexAddr : Addr := ⟨some "H9", "1 A St", "Town", "11111", 35, -80⟩

/-! # Theorems -/

theorem qAbs_eq_abs (x : ℚ) : qAbs x = |x| := by
  unfold qAbs
  rcases lt_or_le x 0 with h | h
  · rw [if_pos h, abs_of_neg h]
  · rw [if_neg (not_lt.mpr h), abs_of_nonneg h]

theorem extractMin_perm {α : Type} [LinearOrder α] (d : Addr → α) :
    ∀ (l : List Addr) (best : Addr),
      ((extractMin d best l).1 :: (extractMin d best l).2).Perm (best :: l) := by
  intro l
  induction l with
  | nil => intro best; simp [extractMin]
  | cons y ys ih =>
    intro best
    by_cases h : d y < d best
    · simp only [extractMin, if_pos h]
      exact (List.Perm.swap best (extractMin d y ys).1
        (extractMin d y ys).2).trans ((ih y).cons best)
    · simp only [extractMin, if_neg h]
      refine (List.Perm.swap y (extractMin d best ys).1
        (extractMin d best ys).2).trans ?_
      exact ((ih best).cons y).trans (List.Perm.swap best y ys)

theorem extractMin_length {α : Type} [LinearOrder α] (d : Addr → α)
    (l : List Addr) (best : Addr) :
    (extractMin d best l).2.length = l.length := by
  have h := (extractMin_perm d l best).length_eq
  simp at h
  exact h



theorem nnGo_perm {α : Type} [LinearOrder α] (dist : Addr → Addr → α) :
    ∀ (fuel : ℕ) (rem : List Addr), rem.length ≤ fuel →
      ∀ cur, (nnGo dist fuel cur rem).Perm (cur :: rem) := by
  intro fuel
  induction fuel with
  | zero =>
    intro rem h cur
    match rem with
    | [] => simp [nnGo]
    | r :: rs => simp at h
  | succ n ih =>
    intro rem h cur
    match rem with
    | [] => simp [nnGo]
    | r :: rs =>
      have hlen : (extractMin (dist cur) r rs).2.length ≤ n := by
        rw [extractMin_length]
        exact Nat.le_of_succ_le_succ h
      have hrec := ih (extractMin (dist cur) r rs).2 hlen
               (extractMin (dist cur) r rs).1
      have hstep : nnGo dist (n + 1) cur (r :: rs)
          = cur :: nnGo dist n (extractMin (dist cur) r rs).1
              (extractMin (dist cur) r rs).2 := by rw [nnGo]
      rw [hstep]
      exact (hrec.cons cur).trans ((extractMin_perm (dist cur) rs r).cons cur)

theorem nnRoute_perm {α : Type} [LinearOrder α] (dist : Addr → Addr → α)
    (points : List Addr) : (nnRoute dist points).Perm points := by
  unfold nnRoute
  split
  · exact List.Perm.refl _
  · match points with
    | [] => simp
    | p :: rest => exact nnGo_perm dist rest.length rest le_rfl p

theorem nnRoute_head {α : Type} [LinearOrder α] (dist : Addr → Addr → α)
    (points : List Addr) : (nnRoute dist points).head? = points.head? := by
  unfold nnRoute
  split
  · rfl
  · match points with
    | [] => simp
    | p :: rest =>
      match rest with
      | [] => simp [nnGo]
      | r :: rs => simp [nnGo]

theorem nnRoute_short {α : Type} [LinearOrder α] (dist : Addr → Addr → α)
    (points : List Addr) (h : points.length ≤ 1) :
    nnRoute dist points = points := by
  unfold nnRoute
  exact if_pos h

theorem totalDistance_short (route : List Addr) (h : route.length ≤ 1) :
    totalDistance route = 0 := by
  match route with
  | [] => simp [totalDistance]
  | [a] => simp [totalDistance]
  | a :: b :: rest => simp at h

/-! ## Facts about the haversine distance -/

theorem haversine_eq_specForm (la1 lo1 la2 lo2 : ℝ) :
    haversineDistance la1 lo1 la2 lo2 = haversineSpecForm la1 lo1 la2 lo2 := rfl

theorem haversine_symm (la1 lo1 la2 lo2 : ℝ) :
    haversineDistance la1 lo1 la2 lo2 = haversineDistance la2 lo2 la1 lo1 := by
  simp only [haversineDistance]
  have h1 : Real.sin ((la2 - la1) * Real.pi / 180 / 2) ^ 2
      = Real.sin ((la1 - la2) * Real.pi / 180 / 2) ^ 2 := by
    have h : (la2 - la1) * Real.pi / 180 / 2
        = -((la1 - la2) * Real.pi / 180 / 2) := by ring
    rw [h, Real.sin_neg]
    ring
  have h2 : Real.sin ((lo2 - lo1) * Real.pi / 180 / 2) ^ 2
      = Real.sin ((lo1 - lo2) * Real.pi / 180 / 2) ^ 2 := by
    have h : (lo2 - lo1) * Real.pi / 180 / 2
        = -((lo1 - lo2) * Real.pi / 180 / 2) := by ring
    rw [h, Real.sin_neg]
    ring
  rw [h1, h2, mul_comm (Real.cos (la1 * Real.pi / 180))
    (Real.cos (la2 * Real.pi / 180))]

theorem haversine_self (la lo : ℝ) : haversineDistance la lo la lo = 0 := by
  simp only [haversineDistance]
  have h : (la - la) * Real.pi / 180 / 2 = 0 := by ring
  have h2 : (lo - lo) * Real.pi / 180 / 2 = 0 := by ring
  rw [h, h2]
  simp [atan2, Real.sqrt_one]

/-- On the equator (both latitudes zero) the haversine formula collapses
to arc length along the equator: radius times the longitude difference
in radians, as long as the two points are less than 180° apart. -/
theorem haversineDistance_equator (x y : ℝ) (hxy : |x - y| < 180) :
    haversineDistance 0 x 0 y = 6371000 * (Real.pi / 180) * |x - y| := by
  have hred : haversineDistance 0 x 0 y
      = 6371000 * (2 * atan2 (Real.sqrt (Real.sin ((y - x) * Real.pi / 180 / 2) ^ 2))
          (Real.sqrt (1 - Real.sin ((y - x) * Real.pi / 180 / 2) ^ 2))) := by
    simp [haversineDistance]
  set d : ℝ := (y - x) * Real.pi / 180 with hd
  have hpi := Real.pi_pos
  have habs0 : |d| = |y - x| * (Real.pi / 180) := by
    rw [hd, abs_div, abs_mul, abs_of_pos hpi]
    norm_num [mul_div_assoc]
  have habs : |d| < Real.pi := by
    rw [habs0]
    have h180 : |y - x| < 180 := by rwa [abs_sub_comm]
    calc |y - x| * (Real.pi / 180) < 180 * (Real.pi / 180) := by
          apply mul_lt_mul_of_pos_right h180
          positivity
      _ = Real.pi := by field_simp
  have hhalf : -(Real.pi / 2) < d / 2 ∧ d / 2 < Real.pi / 2 := by
    constructor <;> [nlinarith [abs_lt.mp habs]; nlinarith [abs_lt.mp habs]]
  have hcos : 0 < Real.cos (d / 2) :=
    Real.cos_pos_of_mem_Ioo ⟨hhalf.1, hhalf.2⟩
  have hsq : (1 : ℝ) - Real.sin (d / 2) ^ 2 = Real.cos (d / 2) ^ 2 := by
    nlinarith [Real.sin_sq_add_cos_sq (d / 2)]
  have hsqrt1 : Real.sqrt (Real.sin (d / 2) ^ 2) = |Real.sin (d / 2)| :=
    Real.sqrt_sq_eq_abs _
  have hsqrt2 : Real.sqrt (1 - Real.sin (d / 2) ^ 2) = Real.cos (d / 2) := by
    rw [hsq, Real.sqrt_sq_eq_abs, abs_of_pos hcos]
  rw [hred, hsqrt1, hsqrt2]
  have habsd : |x - y| = |d| * (180 / Real.pi) := by
    rw [abs_sub_comm, habs0]
    field_simp
  rcases le_or_lt 0 d with hdpos | hdneg
  · have hsin : 0 ≤ Real.sin (d / 2) := by
      apply Real.sin_nonneg_of_nonneg_of_le_pi
      · linarith
      · nlinarith
    rw [abs_of_nonneg hsin]
    have harct : atan2 (Real.sin (d / 2)) (Real.cos (d / 2)) = d / 2 := by
      rw [atan2, if_pos hcos, ← Real.tan_eq_sin_div_cos,
        Real.arctan_tan hhalf.1 hhalf.2]
    rw [harct, habsd, abs_of_nonneg hdpos]
    field_simp
    ring
  · have hsin : Real.sin (d / 2) < 0 := by
      apply Real.sin_neg_of_neg_of_neg_pi_lt
      · linarith
      · nlinarith
    rw [abs_of_neg hsin]
    have harct : atan2 (-Real.sin (d / 2)) (Real.cos (d / 2)) = -(d / 2) := by
      rw [atan2, if_pos hcos, ← Real.sin_neg, ← Real.cos_neg (d / 2),
        ← Real.tan_eq_sin_div_cos, Real.arctan_tan (by linarith) (by linarith)]
    rw [harct, habsd, abs_of_neg hdneg]
    field_simp
    ring

/-! ## Evaluating the haversine clusterer on equatorial data

On points with latitude `0` and longitude in `[0, 180)`, haversine
distance is a fixed positive multiple of the longitude gap, so every
comparison the clusterer makes agrees with the rational surrogate
`qDist`.  Since centroid updates are plain rational arithmetic, the two
runs coincide, which lets concrete runs of `clusterDoorsH` be computed
exactly. -/

theorem doorDist_equator (d : Door) (c : Pt) (hd : onEqDoor d)
    (hc : onEqPt c) :
    doorDist d c = 6371000 * (Real.pi / 180) * |(d.lng : ℝ) - (c.lng : ℝ)| := by
  unfold doorDist
  rw [hd.1, hc.1]
  push_cast
  apply haversineDistance_equator
  have h1 := hd.2.1
  have h2 := hd.2.2
  have h3 := hc.2.1
  have h4 := hc.2.2
  rw [abs_lt]
  constructor
  · have : (c.lng : ℝ) < 180 := by exact_mod_cast h4
    have h0 : (0 : ℝ) ≤ (d.lng : ℝ) := by exact_mod_cast h1
    linarith
  · have : (d.lng : ℝ) < 180 := by exact_mod_cast h2
    have h0 : (0 : ℝ) ≤ (c.lng : ℝ) := by exact_mod_cast h3
    linarith

theorem doorDist_lt_iff (d : Door) (c c' : Pt) (hd : onEqDoor d)
    (hc : onEqPt c) (hc' : onEqPt c') :
    (doorDist d c < doorDist d c' ↔ qDist d c < qDist d c') := by
  rw [doorDist_equator d c hd hc, doorDist_equator d c' hd hc']
  have hK : (0 : ℝ) < 6371000 * (Real.pi / 180) := by
    have := Real.pi_pos
    positivity
  rw [mul_lt_mul_left hK]
  unfold qDist
  rw [qAbs_eq_abs, qAbs_eq_abs]
  rw [show |(d.lng : ℝ) - (c.lng : ℝ)| = ((|d.lng - c.lng| : ℚ) : ℝ) by push_cast; rfl,
      show |(d.lng : ℝ) - (c'.lng : ℝ)| = ((|d.lng - c'.lng| : ℚ) : ℝ) by push_cast; rfl]
  exact Rat.cast_lt

theorem nearestAux_equator (d : Door) (hd : onEqDoor d) :
    ∀ (cs : List Pt), (∀ c ∈ cs, onEqPt c) →
    ∀ (i best : ℕ) (mH : Option ℝ) (mQ : Option ℚ),
      ((mH = none ∧ mQ = none) ∨
        ∃ c0, onEqPt c0 ∧ mH = some (doorDist d c0) ∧ mQ = some (qDist d c0)) →
      nearestAux doorDist d cs i best mH = nearestAux qDist d cs i best mQ := by
  intro cs
  induction cs with
  | nil =>
    intro _ i best mH mQ _
    rfl
  | cons c rest ih =>
    intro hw i best mH mQ hm
    have hc : onEqPt c := hw c (by simp)
    have hrest : ∀ c2 ∈ rest, onEqPt c2 := fun c2 h2 => hw c2 (by simp [h2])
    rcases hm with ⟨hH, hQ⟩ | ⟨c0, hc0, hH, hQ⟩
    · subst hH; subst hQ
      simp only [nearestAux]
      exact ih hrest (i + 1) i (some (doorDist d c))
        (some (qDist d c)) (Or.inr ⟨c, hc, rfl, rfl⟩)
    · subst hH; subst hQ
      simp only [nearestAux]
      have hiff := doorDist_lt_iff d c c0 hd hc hc0
      by_cases h : qDist d c < qDist d c0
      · rw [if_pos (by simpa using hiff.mpr h), if_pos (by simpa using h)]
        exact ih hrest (i + 1) i (some (doorDist d c))
          (some (qDist d c)) (Or.inr ⟨c, hc, rfl, rfl⟩)
      · rw [if_neg (by simpa using fun hx => h (hiff.mp hx)),
            if_neg (by simpa using h)]
        exact ih hrest (i + 1) best (some (doorDist d c0))
          (some (qDist d c0)) (Or.inr ⟨c0, hc0, rfl, rfl⟩)

theorem nearestIdx_equator (d : Door) (hd : onEqDoor d) (cs : List Pt)
    (hw : ∀ c ∈ cs, onEqPt c) :
    nearestIdx doorDist d cs = nearestIdx qDist d cs :=
  nearestAux_equator d hd cs hw 0 0 none none (Or.inl ⟨rfl, rfl⟩)

theorem assignClusters_equator (doors : List Door)
    (hdw : ∀ d ∈ doors, onEqDoor d) (k : ℕ) (cs : List Pt)
    (hw : ∀ c ∈ cs, onEqPt c) :
    assignClusters doorDist doors k cs = assignClusters qDist doors k cs := by
  unfold assignClusters
  apply List.map_congr_left
  intro i _
  apply List.filter_congr
  intro d hdm
  rw [nearestIdx_equator d (hdw d hdm) cs hw]

theorem sum_lt_of_forall_lt (l : List ℚ) (hne : l ≠ [])
    (hb : ∀ x ∈ l, x < 180) : l.sum < 180 * l.length := by
  induction l with
  | nil => simp at hne
  | cons x xs ih =>
    match xs with
    | [] =>
      simp only [List.sum_cons, List.sum_nil, List.length_cons,
        List.length_nil]
      have := hb x (by simp)
      push_cast
      linarith
    | y :: ys =>
      have h1 : x < 180 := hb x (by simp)
      have h2 := ih (by simp) (fun z hz => hb z (by simp [hz]))
      simp only [List.sum_cons, List.length_cons] at h2 ⊢
      push_cast at h2 ⊢
      linarith

theorem clusterMean_window (c : List Door) (h : ∀ d ∈ c, onEqDoor d) :
    onEqPt (clusterMean c) := by
  unfold clusterMean
  by_cases hc : c = []
  · rw [if_pos hc]
    exact ⟨rfl, le_refl 0, by norm_num⟩
  · rw [if_neg hc]
    have hlen : 0 < (c.length : ℚ) := by
      have := List.length_pos.mpr hc
      exact_mod_cast this
    refine ⟨?_, ?_, ?_⟩
    · have : (c.map Door.lat).sum = 0 := by
        apply List.sum_eq_zero
        intro x hx
        obtain ⟨d, hd, rfl⟩ := List.mem_map.mp hx
        exact (h d hd).1
      simp only [this, zero_div]
    · apply div_nonneg _ (le_of_lt hlen)
      apply List.sum_nonneg
      intro x hx
      obtain ⟨d, hd, rfl⟩ := List.mem_map.mp hx
      exact (h d hd).2.1
    · rw [div_lt_iff₀ hlen]
      have hs : (c.map Door.lng).sum < 180 * (c.map Door.lng).length := by
        apply sum_lt_of_forall_lt
        · simpa using hc
        · intro x hx
          obtain ⟨d, hd, rfl⟩ := List.mem_map.mp hx
          exact (h d hd).2.2
      simpa using hs

theorem updateCentroids_window {α : Type} [LinearOrder α]
    (dist : Door → Pt → α) (doors : List Door)
    (hdw : ∀ d ∈ doors, onEqDoor d) (k : ℕ) (cs : List Pt) :
    ∀ c ∈ updateCentroids (assignClusters dist doors k cs), onEqPt c := by
  intro c hcm
  unfold updateCentroids at hcm
  obtain ⟨cl, hcl, rfl⟩ := List.mem_map.mp hcm
  apply clusterMean_window
  intro d hdm
  unfold assignClusters at hcl
  obtain ⟨i, _, rfl⟩ := List.mem_map.mp hcl
  exact hdw d (List.mem_of_mem_filter hdm)

theorem kloop_window {α : Type} [LinearOrder α] (dist : Door → Pt → α)
    (doors : List Door) (hdw : ∀ d ∈ doors, onEqDoor d) (k : ℕ) :
    ∀ (fuel : ℕ) (cs : List Pt), (∀ c ∈ cs, onEqPt c) →
      ∀ c ∈ kloop dist doors k cs fuel, onEqPt c := by
  intro fuel
  induction fuel with
  | zero => intro cs hw; simpa [kloop] using hw
  | succ n ih =>
    intro cs hw
    simp only [kloop]
    split
    · exact ih _ (updateCentroids_window dist doors hdw k cs)
    · exact updateCentroids_window dist doors hdw k cs

theorem kloop_equator (doors : List Door) (hdw : ∀ d ∈ doors, onEqDoor d)
    (k : ℕ) : ∀ (fuel : ℕ) (cs : List Pt), (∀ c ∈ cs, onEqPt c) →
      kloop doorDist doors k cs fuel = kloop qDist doors k cs fuel := by
  intro fuel
  induction fuel with
  | zero => intro cs _; rfl
  | succ n ih =>
    intro cs hw
    simp only [kloop]
    rw [assignClusters_equator doors hdw k cs hw]
    split
    · exact ih _ (updateCentroids_window qDist doors hdw k cs)
    · rfl

theorem clusterFinalCentroids_equator (doors : List Door)
    (hdw : ∀ d ∈ doors, onEqDoor d) (k : ℕ) (shuffled : List Door)
    (hsw : ∀ d ∈ shuffled, onEqDoor d) :
    clusterFinalCentroids doorDist doors k shuffled
      = clusterFinalCentroids qDist doors k shuffled := by
  unfold clusterFinalCentroids
  apply kloop_equator doors hdw k 50
  intro c hcm
  obtain ⟨d, hdm, rfl⟩ := List.mem_map.mp hcm
  have hd := hsw d (List.mem_of_mem_take hdm)
  exact ⟨hd.1, hd.2.1, hd.2.2⟩

/-- On equatorial data, the haversine clusterer coincides with the
exact-rational run, making it computable. -/
theorem clusterDoorsH_equator (doors : List Door)
    (hdw : ∀ d ∈ doors, onEqDoor d) (k : ℕ) (shuffled : List Door)
    (hsw : ∀ d ∈ shuffled, onEqDoor d) :
    clusterDoorsH doors k shuffled = clusterDoors qDist doors k shuffled := by
  unfold clusterDoorsH clusterDoors
  by_cases h0 : doors = []
  · rw [if_pos h0, if_pos h0]
  · rw [if_neg h0, if_neg h0]
    by_cases h1 : doors.length ≤ k
    · rw [if_pos h1, if_pos h1]
    · rw [if_neg h1, if_neg h1]
      have hcs := clusterFinalCentroids_equator doors hdw k shuffled hsw
      have hwin : ∀ c ∈ clusterFinalCentroids qDist doors k shuffled, onEqPt c := by
        apply kloop_window qDist doors hdw k 50
        intro c hcm
        obtain ⟨d, hdm, rfl⟩ := List.mem_map.mp hcm
        have hd := hsw d (List.mem_of_mem_take hdm)
        exact ⟨hd.1, hd.2.1, hd.2.2⟩
      rw [hcs, assignClusters_equator doors hdw k _ hwin]

/-! ## A concrete clusterer run (claim C2)

Doors at longitudes 50, 50, 60, 62 with k = 3, seeded in input order:
clusters 0 and 1 start from identical centroids, so the first-minimum
tie-break empties cluster 1 immediately, its centroid resets to the
origin, and the loop converges with assignment
`[[d1, d2], [], [d3, d4]]`.  Dropping the empty cluster then pairs the
second returned group with `centroids[1] = (0, 0)` — the dropped empty
cluster's centroid — although its members were assigned to centroid 2
at `(0, 61)`. -/

theorem kloop_go {α : Type} [LinearOrder α] (dist : Door → Pt → α)
    (doors : List Door) (k : ℕ) (cs newC : List Pt) (fuel : ℕ)
    (h : updateCentroids (assignClusters dist doors k cs) = newC)
    (hm : movedCheck cs newC = true) :
    kloop dist doors k cs (fuel + 1) = kloop dist doors k newC fuel := by
  simp only [kloop, h, hm, if_true]

theorem kloop_stop {α : Type} [LinearOrder α] (dist : Door → Pt → α)
    (doors : List Door) (k : ℕ) (cs newC : List Pt) (fuel : ℕ)
    (h : updateCentroids (assignClusters dist doors k cs) = newC)
    (hm : movedCheck cs newC = false) :
    kloop dist doors k cs (fuel + 1) = newC := by
  simp [kloop, h, hm]

theorem cexAssign0 : assignClusters qDist cexDoors 3 cexCs0 = cexCl0 := by
  norm_num [assignClusters, cexDoors, cexCl0, List.range_succ,
    nearestIdx, nearestAux, qDist, qAbs, cexD1, cexD2, cexD3, cexD4, cexCs0,
    List.filter]
  decide

theorem cexAssign1 : assignClusters qDist cexDoors 3 cexCs1 = cexCl0 := by
  norm_num [assignClusters, cexDoors, cexCl0, List.range_succ,
    nearestIdx, nearestAux, qDist, qAbs, cexD1, cexD2, cexD3, cexD4, cexCs1,
    List.filter]
  decide

theorem cexUpd : updateCentroids cexCl0 = cexCs1 := by
  norm_num [updateCentroids, clusterMean, cexCl0, cexCs1, cexD1, cexD2,
    cexD3, cexD4]
  decide

theorem cexMoved0 : movedCheck cexCs0 cexCs1 = true := by
  norm_num [movedCheck, qAbs, cexCs0, cexCs1]

theorem cexMoved1 : movedCheck cexCs1 cexCs1 = false := by
  norm_num [movedCheck, qAbs, cexCs1]

theorem cexKloop : kloop qDist cexDoors 3 cexCs0 50 = cexCs1 := by
  have h1 := kloop_go qDist cexDoors 3 cexCs0 cexCs1 49
    (cexAssign0 ▸ cexUpd) cexMoved0
  have h2 := kloop_stop qDist cexDoors 3 cexCs1 cexCs1 48
    (cexAssign1 ▸ cexUpd) cexMoved1
  exact h1.trans h2

theorem cexFinal : clusterFinalCentroids qDist cexDoors 3 cexDoors = cexCs1 := by
  have h0 : clusterFinalCentroids qDist cexDoors 3 cexDoors
      = kloop qDist cexDoors 3 cexCs0 50 := rfl
  exact h0.trans cexKloop

theorem cexQ : clusterDoors qDist cexDoors 3 cexDoors =
    [⟨[cexD1, cexD2], ["A", "B"], ⟨0, 50⟩, none⟩,
     ⟨[cexD3, cexD4], ["C", "D"], ⟨0, 0⟩, none⟩] := by
  unfold clusterDoors
  rw [if_neg (by decide), if_neg (by decide), cexFinal, cexAssign1]
  decide

theorem cexWindows : ∀ d ∈ cexDoors, onEqDoor d := by decide

theorem cexH : clusterDoorsH cexDoors 3 cexDoors =
    [⟨[cexD1, cexD2], ["A", "B"], ⟨0, 50⟩, none⟩,
     ⟨[cexD3, cexD4], ["C", "D"], ⟨0, 0⟩, none⟩] := by
  rw [clusterDoorsH_equator cexDoors cexWindows 3 cexDoors cexWindows]
  exact cexQ

theorem cexFinalH : clusterFinalCentroidsH cexDoors 3 cexDoors = cexCs1 := by
  unfold clusterFinalCentroidsH
  rw [clusterFinalCentroids_equator cexDoors cexWindows 3 cexDoors cexWindows]
  exact cexFinal

theorem cexNear3 : nearestIdx doorDist cexD3 cexCs1 = 2 := by
  rw [nearestIdx_equator cexD3 (by decide) cexCs1 (by decide)]
  norm_num [nearestIdx, nearestAux, qDist, qAbs, cexD3, cexCs1]

theorem cexNear4 : nearestIdx doorDist cexD4 cexCs1 = 2 := by
  rw [nearestIdx_equator cexD4 (by decide) cexCs1 (by decide)]
  norm_num [nearestIdx, nearestAux, qDist, qAbs, cexD4, cexCs1]

/-- C2: the Geographic Clusterer does drop empty clusters after the
final assignment pass, but the returned groups do **not** carry the
centroid their members were assigned to: on the doors
`cexDoors` with `k = 3` and shuffle outcome equal to the input order,
the haversine clusterer returns a second group holding the doors at
longitudes 60 and 62 with center `(0, 0)` — the centroid of the dropped
empty cluster 1 — while both of those doors were nearest-assigned to
final centroid index 2, which sits at `(0, 61)`.  The indexed map after
`filter` re-bases the index, misaligning centers with clusters. -/
theorem claim_C2_run :
    clusterDoorsH cexDoors 3 cexDoors =
      [⟨[cexD1, cexD2], ["A", "B"], ⟨0, 50⟩, none⟩,
       ⟨[cexD3, cexD4], ["C", "D"], ⟨0, 0⟩, none⟩]
    ∧ clusterFinalCentroidsH cexDoors 3 cexDoors = [⟨0, 50⟩, ⟨0, 0⟩, ⟨0, 61⟩]
    ∧ nearestIdx doorDist cexD3 [⟨0, 50⟩, ⟨0, 0⟩, ⟨0, 61⟩] = 2
    ∧ nearestIdx doorDist cexD4 [⟨0, 50⟩, ⟨0, 0⟩, ⟨0, 61⟩] = 2
    ∧ ([(⟨0, 50⟩ : Pt), ⟨0, 0⟩, ⟨0, 61⟩].getD 2 ⟨0, 0⟩ ≠ ⟨0, 0⟩) :=
  ⟨cexH, cexFinalH, cexNear3, cexNear4, by decide⟩

/-! ## Claim theorems -/

/-- C5: `haversineDistance` is exactly the spec's formula (Earth radius
6 371 000 m, half-angle sine-squared form), it is symmetric in its two
points, and the distance from a point to itself is zero. -/
theorem claim_C5 :
    (∀ la1 lo1 la2 lo2 : ℝ,
      haversineDistance la1 lo1 la2 lo2 = haversineSpecForm la1 lo1 la2 lo2)
    ∧ (∀ la1 lo1 la2 lo2 : ℝ,
      haversineDistance la1 lo1 la2 lo2 = haversineDistance la2 lo2 la1 lo1)
    ∧ (∀ la lo : ℝ, haversineDistance la lo la lo = 0) :=
  ⟨haversine_eq_specForm, haversine_symm, haversine_self⟩

/-- C3: the Route Optimizer's output is a permutation of its input that
starts at the first input point (so it visits every input household
exactly once and never revisits one — distinct inputs stay distinct);
for `length ≤ 1` the input is returned unchanged and the total distance
is `0`. -/
theorem claim_C3 (points : List Addr) :
    (nearestNeighborRoute points).Perm points
    ∧ (nearestNeighborRoute points).head? = points.head?
    ∧ (points.Nodup → (nearestNeighborRoute points).Nodup)
    ∧ (points.length ≤ 1 →
        nearestNeighborRoute points = points
        ∧ totalDistance (nearestNeighborRoute points) = 0) := by
  refine ⟨nnRoute_perm addrDist points, nnRoute_head addrDist points, ?_, ?_⟩
  · intro h
    exact ((nnRoute_perm addrDist points).nodup_iff).mpr h
  · intro h
    have he : nearestNeighborRoute points = points :=
      nnRoute_short addrDist points h
    refine ⟨he, ?_⟩
    rw [he]
    exact totalDistance_short points h

/-- C3 witness: the one-point route is returned unchanged, with zero
distance and no revisit. -/
theorem claim_C3_witness :
    (nearestNeighborRoute [cexAddr]).Perm [cexAddr]
    ∧ nearestNeighborRoute [cexAddr] = [cexAddr]
    ∧ (nearestNeighborRoute [cexAddr]).Nodup
    ∧ totalDistance (nearestNeighborRoute [cexAddr]) = 0 := by
  obtain ⟨h1, h2, h3, h4⟩ := claim_C3 [cexAddr]
  have h5 := h4 (by decide)
  exact ⟨h1, h5.1, h3 (by decide), h5.2⟩

/-- C4: when the target count is at least the number of households, the
clusterer returns one singleton cluster per household carrying that
household's coordinates as its center; and auto-cut's turf count is
`max(1, ceil(doorCount / doorsPerTurf))`. -/
theorem claim_C4 :
    (∀ (doors : List Door) (k : ℕ) (shuffled : List Door),
      doors.length ≤ k →
      clusterDoorsH doors k shuffled
        = doors.map (fun d => ⟨[d], d.ncids, ⟨d.lat, d.lng⟩, none⟩))
    ∧ (∀ (n : ℕ) (dpt : ℚ),
        ((autoCutK n dpt).toNat : ℤ) = max 1 ⌈(n : ℚ) / dpt⌉) := by
  constructor
  · intro doors k sh h
    unfold clusterDoorsH clusterDoors
    by_cases h0 : doors = []
    · subst h0; simp
    · rw [if_neg h0, if_pos h]
  · intro n dpt
    unfold autoCutK
    rw [Int.toNat_of_nonneg]
    exact le_trans (by norm_num) (le_max_left 1 ⌈(n : ℚ) / dpt⌉)

/-- C4 witness: two households with `k = 5` produce exactly the two
singleton clusters, centered on the households. -/
theorem claim_C4_witness :
    clusterDoorsH [cexD1, cexD3] 5 []
      = [⟨[cexD1], ["A"], ⟨0, 50⟩, none⟩, ⟨[cexD3], ["C"], ⟨0, 60⟩, none⟩]
    ∧ ((autoCutK 4 50).toNat : ℤ) = max 1 ⌈(4 : ℚ) / 50⌉ := by
  constructor
  · have h := claim_C4.1 [cexD1, cexD3] 5 [] (by decide)
    rw [h]
    decide
  · exact claim_C4.2 4 50

theorem deleteTurf_memberships (u tid : ℕ) (db : Db) :
    (deleteTurf u tid db).2.memberships
      = db.memberships.map (fun m =>
          if m.turf_id = some tid then { m with turf_id := none } else m) := rfl

theorem deleteTurf_no_ref (u tid : ℕ) (db : Db) :
    ∀ m ∈ (deleteTurf u tid db).2.memberships, m.turf_id ≠ some tid := by
  intro m hm
  rw [deleteTurf_memberships] at hm
  obtain ⟨m0, _, rfl⟩ := List.mem_map.mp hm
  by_cases h : m0.turf_id = some tid
  · simp [h]
  · simp [h]

/-- C8: `deleteTurf` rewrites every membership row referencing the turf
to a null turf id (before removing the turf row), so afterwards no
membership row references the deleted turf. -/
theorem claim_C8 (u tid : ℕ) (db : Db) :
    (deleteTurf u tid db).2.memberships
      = db.memberships.map (fun m =>
          if m.turf_id = some tid then { m with turf_id := none } else m)
    ∧ ∀ m ∈ (deleteTurf u tid db).2.memberships, m.turf_id ≠ some tid :=
  ⟨deleteTurf_memberships u tid db, deleteTurf_no_ref u tid db⟩

/-- C8 witness: deleting turf 5 clears its one member's turf id. -/
theorem claim_C8_witness :
    (deleteTurf 1 5 c8Db).2.memberships
      = [⟨6, "V4", some "HH2", 0, none, "2 E St", "Town", "11111", none,
          some (35, -80)⟩]
    ∧ (⟨6, "V4", some "HH2", 0, none, "2 E St", "Town", "11111", none,
          some (35, -80)⟩ : MembershipRow).turf_id ≠ some 5 := by
  obtain ⟨h1, h2⟩ := claim_C8 1 5 c8Db
  constructor
  · rw [h1]; decide
  · exact h2 _ (by decide)

/-- C10: the membership-clearing update of `deleteTurf` ignores turf
ownership while the turf-row deletion is user-scoped: when no turf row
matches both the id and the requesting user, the call still nulls every
member's turf id, deletes no turf row, and reports success. -/
theorem claim_C10 (u tid : ℕ) (db : Db)
    (h : ∀ t ∈ db.turfs, ¬(t.id = tid ∧ t.user_id = u)) :
    (deleteTurf u tid db).1 = .okDelete
    ∧ (deleteTurf u tid db).2.turfs = db.turfs
    ∧ (deleteTurf u tid db).2.memberships
        = db.memberships.map (fun m =>
            if m.turf_id = some tid then { m with turf_id := none } else m)
    ∧ ∀ m ∈ (deleteTurf u tid db).2.memberships, m.turf_id ≠ some tid := by
  refine ⟨rfl, ?_, deleteTurf_memberships u tid db, deleteTurf_no_ref u tid db⟩
  show db.turfs.filter (fun t => !(t.id == tid && t.user_id == u)) = db.turfs
  apply List.filter_eq_self.mpr
  intro t ht
  have ht2 := h t ht
  simp only [Bool.not_eq_true', Bool.and_eq_false_iff, beq_eq_false_iff_ne,
    ne_eq]
  by_cases h1 : t.id = tid
  · right
    intro h2
    exact ht2 ⟨h1, h2⟩
  · left
    exact h1

/-- C10 witness: deleting turf 5 as user 1 while it belongs to user 2
clears the membership but leaves the turf row. -/
theorem claim_C10_witness :
    (deleteTurf 1 5 c10Db).1 = .okDelete
    ∧ (deleteTurf 1 5 c10Db).2.turfs = c10Db.turfs
    ∧ (deleteTurf 1 5 c10Db).2.memberships
        = c10Db.memberships.map (fun m =>
            if m.turf_id = some 5 then { m with turf_id := none } else m)
    ∧ ∀ m ∈ (deleteTurf 1 5 c10Db).2.memberships, m.turf_id ≠ some 5 :=
  claim_C10 1 5 c10Db (by decide)

/-- C6: `createManual` rejects a polygon whose `type` is not
`'Polygon'` or whose `coordinates` are absent with the
malformed-polygon validation error and leaves the database untouched;
a well-formed polygon containing no voters yields the distinct
no-voters error, again without creating a turf or touching any
membership. -/
theorem claim_C6 :
    (∀ (u lid : ℕ) (nm desc : Option String) (p : Polygon)
       (inPoly : Polygon → ℚ × ℚ → Bool) (pC : Polygon → Pt) (db : Db),
      lid ≠ 0 → (p.ptype ≠ "Polygon" ∨ p.coordinates = none) →
      createManual u (some lid) nm desc (some p) inPoly pC db
        = (.badRequest "Invalid polygon format. Expected GeoJSON Polygon.", db))
    ∧ (∀ (u lid : ℕ) (nm desc : Option String) (p : Polygon)
       (inPoly : Polygon → ℚ × ℚ → Bool) (pC : Polygon → Pt) (db : Db)
       (l : ListRow),
      lid ≠ 0 → p.ptype = "Polygon" → p.coordinates ≠ none →
      db.lists.find? (fun r => r.id == lid && r.user_id == u) = some l →
      votersWithin db lid p inPoly = [] →
      createManual u (some lid) nm desc (some p) inPoly pC db
        = (.badRequest "No voters found within the specified polygon", db))
    ∧ (ApiResponse.badRequest "Invalid polygon format. Expected GeoJSON Polygon."
        ≠ ApiResponse.badRequest "No voters found within the specified polygon") := by
  refine ⟨?_, ?_, by decide⟩
  · intro u lid nm desc p inPoly pC db hlid hp
    simp only [createManual, if_neg hlid, if_pos hp]
  · intro u lid nm desc p inPoly pC db l hlid hp1 hp2 hfind hvw
    have hp : ¬(p.ptype ≠ "Polygon" ∨ p.coordinates = none) := by
      push_neg
      exact ⟨hp1, hp2⟩
    simp only [createManual, if_neg hlid, if_neg hp, hfind, hvw, if_pos]

/-- C6 witness: a `Point`-typed polygon is rejected as malformed, and a
well-formed polygon with no voters inside gets the distinct
empty-result error; the database is unchanged in both cases. -/
theorem claim_C6_witness :
    createManual 1 (some 3) none none (some badPoly) (fun _ _ => false)
        (fun _ => ⟨0, 0⟩) c6Db
      = (.badRequest "Invalid polygon format. Expected GeoJSON Polygon.", c6Db)
    ∧ createManual 1 (some 3) none none (some okPoly) (fun _ _ => false)
        (fun _ => ⟨0, 0⟩) c6Db
      = (.badRequest "No voters found within the specified polygon", c6Db) := by
  constructor
  · exact claim_C6.1 1 3 none none badPoly (fun _ _ => false)
      (fun _ => ⟨0, 0⟩) c6Db (by decide) (by left; decide)
  · exact claim_C6.2.1 1 3 none none okPoly (fun _ _ => false)
      (fun _ => ⟨0, 0⟩) c6Db ⟨3, 1, "L3"⟩ (by decide) rfl (by decide)
      rfl rfl

theorem foldl_id_of {β γ : Type} (f : γ → β → γ) :
    ∀ (l : List β) (acc : γ), (∀ x ∈ l, ∀ a, f a x = a) →
      l.foldl f acc = acc := by
  intro l
  induction l with
  | nil => intro acc _; rfl
  | cons x xs ih =>
    intro acc h
    rw [List.foldl_cons, h x (by simp), ih acc (fun y hy => h y (by simp [hy]))]

theorem buildHouseholds_falsy (voters : List VoterRow)
    (h : ∀ v ∈ voters, truthyStr v.household_id = false) :
    buildHouseholds voters = [] := by
  unfold buildHouseholds
  apply foldl_id_of
  intro v hv a
  have hvf := h v hv
  match hv2 : v.household_id with
  | none => simp [hv2]
  | some hid =>
    rw [hv2] at hvf
    simp only [truthyStr, Bool.not_eq_false'] at hvf
    have : hid = "" := by simpa using hvf
    simp [hv2, this]

/-- C7: a well-formed auto-cut request with no geocoded voters gets the
no-geocoded-voters report and no state change; one whose geocoded
voters all lack a household key (zero households) runs the clusterer on
the empty list, which returns the empty partition, so no turf is
created, the database is unchanged, and the caller gets a zero-turf
success report; both reports differ from the `list_id` validation
error. -/
theorem claim_C7 :
    (∀ (u lid : ℕ) (dpt : ℚ) (method : String) (sh : List Door) (db : Db)
       (l : ListRow),
      lid ≠ 0 →
      db.lists.find? (fun r => r.id == lid && r.user_id == u) = some l →
      listVoters db lid = [] →
      autoCut u (some lid) dpt method sh db
        = (.badRequest
            "No geocoded voters in this list. Please geocode addresses first.",
           db))
    ∧ (∀ (u lid : ℕ) (dpt : ℚ) (sh : List Door) (db : Db) (l : ListRow),
      lid ≠ 0 →
      db.lists.find? (fun r => r.id == lid && r.user_id == u) = some l →
      listVoters db lid ≠ [] →
      (∀ v ∈ listVoters db lid, truthyStr v.household_id = false) →
      autoCut u (some lid) dpt "cluster" sh db = (.okAutoCut 0 [], db))
    ∧ (∀ (k : ℕ) (sh : List Door), clusterDoorsH [] k sh = [])
    ∧ (ApiResponse.badRequest
        "No geocoded voters in this list. Please geocode addresses first."
        ≠ ApiResponse.badRequest "list_id is required")
    ∧ (ApiResponse.okAutoCut 0 []
        ≠ ApiResponse.badRequest "list_id is required") := by
  refine ⟨?_, ?_, ?_, by decide, by decide⟩
  · intro u lid dpt method sh db l hlid hfind hv
    simp only [autoCut, if_neg hlid, hfind, hv, if_pos]
  · intro u lid dpt sh db l hlid hfind hv hall
    have hdoors : buildHouseholds (listVoters db lid) = [] :=
      buildHouseholds_falsy _ hall
    simp only [autoCut, if_neg hlid, hfind, if_neg hv, hdoors]
    simp [clusterDoorsH, clusterDoors, createTurfsGo]
  · intro k sh
    simp [clusterDoorsH, clusterDoors]

/-- C7 witness: a list with no geocoded members gets the
no-geocoded-voters report; a list whose one geocoded member has no
household key gets the zero-turf success report; neither changes the
database. -/
theorem claim_C7_witness :
    autoCut 1 (some 4) 50 "cluster" [] c7aDb
      = (.badRequest
          "No geocoded voters in this list. Please geocode addresses first.",
         c7aDb)
    ∧ autoCut 1 (some 5) 50 "cluster" [] c7bDb = (.okAutoCut 0 [], c7bDb)
    ∧ clusterDoorsH [] 1 [] = [] := by
  refine ⟨?_, ?_, claim_C7.2.2.1 1 []⟩
  · exact claim_C7.1 1 4 50 "cluster" [] c7aDb ⟨4, 1, "L4"⟩ (by decide)
      rfl rfl
  · exact claim_C7.2.1 1 5 50 [] c7bDb ⟨5, 1, "L5"⟩ (by decide) rfl
      (by decide) (by decide)

theorem getRoute_cached (u tid : ℕ) (db : Db) (t : TurfRow) (rd : RouteData)
    (hf : db.turfs.find? (fun t2 => t2.id == tid && t2.user_id == u) = some t)
    (hr : t.route_data = some rd) :
    getRoute u tid db = (.okRoute rd, db) := by
  simp only [getRoute, hf, hr]

theorem getRoute_uncached (u tid : ℕ) (db : Db) (t : TurfRow)
    (hf : db.turfs.find? (fun t2 => t2.id == tid && t2.user_id == u) = some t)
    (hr : t.route_data = none) (ha : turfAddresses db tid ≠ []) :
    getRoute u tid db
      = (.okRoute (computeRouteData (turfAddresses db tid)),
         { db with turfs := db.turfs.map (fun t2 =>
             if t2.id = tid then
               { t2 with route_data := some (computeRouteData (turfAddresses db tid)) }
             else t2) }) := by
  simp only [getRoute, hf, hr, if_neg ha]

theorem getRoute_noaddr (u tid : ℕ) (db : Db) (t : TurfRow)
    (hf : db.turfs.find? (fun t2 => t2.id == tid && t2.user_id == u) = some t)
    (hr : t.route_data = none) (ha : turfAddresses db tid = []) :
    getRoute u tid db = (.okEmptyRoute, db) := by
  simp only [getRoute, hf, hr, ha, if_pos]

/-- C9 (amended): a turf whose `route_data` is present gets exactly the
stored value back with the database unchanged (no recomputation); on
the first request for a turf that has at least one geocoded member
household, the computed route is written onto the turf row. -/
theorem claim_C9_amended :
    (∀ (u tid : ℕ) (db : Db) (t : TurfRow) (rd : RouteData),
      db.turfs.find? (fun t2 => t2.id == tid && t2.user_id == u) = some t →
      t.route_data = some rd →
      getRoute u tid db = (.okRoute rd, db))
    ∧ (∀ (u tid : ℕ) (db : Db) (t : TurfRow),
      db.turfs.find? (fun t2 => t2.id == tid && t2.user_id == u) = some t →
      t.route_data = none → turfAddresses db tid ≠ [] →
      getRoute u tid db
        = (.okRoute (computeRouteData (turfAddresses db tid)),
           { db with turfs := db.turfs.map (fun t2 =>
               if t2.id = tid then
                 { t2 with
                   route_data := some (computeRouteData (turfAddresses db tid)) }
               else t2) })) :=
  ⟨getRoute_cached, getRoute_uncached⟩

/-- C9 counterexample: a first `getRoute` request does **not** always
write the computed route back — turf 1 has no cached route and no
member addresses, the request succeeds with the empty route, and the
turf row still has `route_data = none` afterwards (the early return of
`turfs.js` line 534 skips the cache write). -/
theorem claim_C9_counterexample :
    getRoute 1 1 c9Db = (.okEmptyRoute, c9Db)
    ∧ c9Db.turfs.map TurfRow.route_data = [none] :=
  ⟨getRoute_noaddr 1 1 c9Db ⟨1, 1, 1, "T1", none, 0, 0, 0, ⟨0, 0⟩, none, none⟩
      (by decide) rfl rfl,
   by decide⟩

/-- C9 witness: turf 2's stored route is returned unchanged with no
state change, and turf 3 (uncached, one geocoded member) has the
computed route written back. -/
theorem claim_C9_witness :
    getRoute 1 2 c9cDb = (.okRoute c9Rd, c9cDb)
    ∧ getRoute 1 3 c9uDb
      = (.okRoute (computeRouteData (turfAddresses c9uDb 3)),
         { c9uDb with turfs := c9uDb.turfs.map (fun t2 =>
             if t2.id = 3 then
               { t2 with
                 route_data := some (computeRouteData (turfAddresses c9uDb 3)) }
             else t2) }) := by
  constructor
  · exact claim_C9_amended.1 1 2 c9cDb
      ⟨2, 1, 1, "T2", none, 1, 1, 3, ⟨35, -80⟩, none, some c9Rd⟩ c9Rd
      (by decide) rfl
  · exact claim_C9_amended.2 1 3 c9uDb
      ⟨3, 1, 7, "T3", none, 1, 1, 3, ⟨35, -80⟩, none, none⟩ (by decide) rfl
      (by decide)

/-! ## Invariants of the partitions fed to turf persistence (claim C1) -/

theorem foldl_inv {β γ : Type} (f : γ → β → γ) (P : γ → Prop)
    (hstep : ∀ a x, P a → P (f a x)) :
    ∀ (l : List β) (acc : γ), P acc → P (l.foldl f acc) := by
  intro l
  induction l with
  | nil => intro acc h; exact h
  | cons x xs ih => intro acc h; exact ih (f acc x) (hstep acc x h)

theorem buildHouseholds_ncids (voters : List VoterRow) :
    ∀ d ∈ buildHouseholds voters, d.ncids ≠ [] := by
  unfold buildHouseholds
  refine foldl_inv _ (fun acc : List Door => ∀ d ∈ acc, d.ncids ≠ []) ?_
    voters [] (by simp)
  intro a v hP
  match hv : v.household_id with
  | none => simpa [hv] using hP
  | some hid =>
    simp only [hv]
    by_cases he : hid = ""
    · simpa [he] using hP
    · simp only [if_neg he]
      intro d hd
      unfold pushNcid at hd
      obtain ⟨d0, hd0, rfl⟩ := List.mem_map.mp hd
      by_cases hi : d0.id = hid
      · simp [hi]
      · simp only [if_neg hi]
        by_cases hb : a.any (fun h2 => h2.id == hid)
        · rw [if_pos hb] at hd0
          exact hP d0 hd0
        · rw [if_neg hb] at hd0
          rcases List.mem_append.mp hd0 with h1 | h2
          · exact hP d0 h1
          · simp only [List.mem_singleton] at h2
            subst h2
            exact absurd rfl hi

theorem length_le_flatMap (c : List Door) (h : ∀ x ∈ c, x.ncids ≠ []) :
    c.length ≤ (c.flatMap Door.ncids).length := by
  induction c with
  | nil => simp
  | cons x xs ih =>
    simp only [List.flatMap_cons, List.length_append, List.length_cons]
    have h1 : 1 ≤ x.ncids.length := List.length_pos.mpr (h x (by simp))
    have h2 := ih (fun y hy => h y (by simp [hy]))
    omega

theorem clusterDoors_groups {α : Type} [LinearOrder α] (dist : Door → Pt → α)
    (doors : List Door) (k : ℕ) (sh : List Door)
    (h : ∀ d ∈ doors, d.ncids ≠ []) :
    ∀ g ∈ clusterDoors dist doors k sh,
      1 ≤ g.doors.length ∧ g.doors.length ≤ g.ncids.length := by
  intro g hg
  unfold clusterDoors at hg
  by_cases h0 : doors = []
  · rw [if_pos h0] at hg
    simp at hg
  · rw [if_neg h0] at hg
    by_cases h1 : doors.length ≤ k
    · rw [if_pos h1] at hg
      obtain ⟨d, hd, rfl⟩ := List.mem_map.mp hg
      refine ⟨by simp, ?_⟩
      have := List.length_pos.mpr (h d hd)
      simpa using this
    · rw [if_neg h1, List.mapIdx_eq_ofFn, List.mem_ofFn] at hg
      obtain ⟨i, rfl⟩ := hg
      have hcl : ((assignClusters dist doors k
          (clusterFinalCentroids dist doors k sh)).filter
            (fun c => !c.isEmpty)).get i
          ∈ (assignClusters dist doors k
              (clusterFinalCentroids dist doors k sh)).filter
                (fun c => !c.isEmpty) := by
        exact List.get_mem _ i.1 i.2
      have hfil := List.mem_filter.mp hcl
      have hcne : ((assignClusters dist doors k
          (clusterFinalCentroids dist doors k sh)).filter
            (fun c => !c.isEmpty)).get i ≠ [] := by
        have := hfil.2
        simp only [Bool.not_eq_eq_eq_not, Bool.not_false] at this
        intro hcontr
        rw [hcontr] at this
        simp at this
      have hsub : ∀ x ∈ ((assignClusters dist doors k
          (clusterFinalCentroids dist doors k sh)).filter
            (fun c => !c.isEmpty)).get i, x ∈ doors := by
        have hin := hfil.1
        unfold assignClusters at hin
        obtain ⟨j, _, heq⟩ := List.mem_map.mp hin
        intro x hx
        have hx2 : x ∈ doors.filter (fun d =>
            nearestIdx dist d (clusterFinalCentroids dist doors k sh) == j) := by
          rw [heq]
          exact hx
        exact List.mem_of_mem_filter hx2
      refine ⟨List.length_pos.mpr hcne, ?_⟩
      apply length_le_flatMap
      intro x hx
      exact h x (hsub x hx)

theorem distinctKeys_sub :
    ∀ (l acc : List (Option String)),
      ∀ x ∈ l.foldl
        (fun acc x => if acc.contains x then acc else acc ++ [x]) acc,
        x ∈ acc ∨ x ∈ l := by
  intro l
  induction l with
  | nil => intro acc x hx; exact Or.inl hx
  | cons y ys ih =>
    intro acc x hx
    rw [List.foldl_cons] at hx
    rcases ih _ x hx with h1 | h2
    · by_cases hb : acc.contains y
      · rw [if_pos hb] at h1
        exact Or.inl h1
      · rw [if_neg hb] at h1
        rcases List.mem_append.mp h1 with ha | hb2
        · exact Or.inl ha
        · simp only [List.mem_singleton] at hb2
          subst hb2
          exact Or.inr (by simp)
    · exact Or.inr (by simp [h2])

theorem distinctKeys_mem (l : List (Option String)) :
    ∀ x ∈ distinctKeys l, x ∈ l := by
  intro x hx
  rcases distinctKeys_sub l [] x hx with h | h
  · simp at h
  · exact h

theorem distinctKeys_length :
    ∀ (l acc : List (Option String)),
      (l.foldl (fun acc x => if acc.contains x then acc else acc ++ [x])
        acc).length ≤ acc.length + l.length := by
  intro l
  induction l with
  | nil => intro acc; simp
  | cons y ys ih =>
    intro acc
    rw [List.foldl_cons]
    refine le_trans (ih _) ?_
    have hle : (if acc.contains y then acc else acc ++ [y]).length
        ≤ acc.length + 1 := by
      by_cases hb : acc.contains y
      · rw [if_pos hb]
        omega
      · rw [if_neg hb]
        simp
    simp only [List.length_cons]
    omega

theorem distinctKeys_length_le (l : List (Option String)) :
    (distinctKeys l).length ≤ l.length := by
  have h2 : (([] : List (Option String)).length + l.length) = l.length := by
    simp
  exact h2 ▸ distinctKeys_length l []

theorem groupByPrecinct_groups (voters : List VoterRow) :
    ∀ g ∈ groupByPrecinct voters,
      g.doors.length ≤ g.ncids.length ∧ 1 ≤ g.ncids.length := by
  intro g hg
  unfold groupByPrecinct at hg
  obtain ⟨p, hp, rfl⟩ := List.mem_map.mp hg
  have hpmem : p ∈ voters.map VoterRow.precinct_name := distinctKeys_mem _ p hp
  obtain ⟨v, hv, hvp⟩ := List.mem_map.mp hpmem
  have hvmem : v ∈ voters.filter (fun v2 => v2.precinct_name == p) :=
    List.mem_filter.mpr ⟨hv, by simp [hvp]⟩
  constructor
  · simp only [List.length_map]
    calc ((distinctKeys ((voters.filter
          (fun v2 => v2.precinct_name == p)).map VoterRow.household_id)).filter
            (fun h => truthyStr h)).length
        ≤ (distinctKeys ((voters.filter
            (fun v2 => v2.precinct_name == p)).map
              VoterRow.household_id)).length := List.length_filter_le _ _
      _ ≤ ((voters.filter (fun v2 => v2.precinct_name == p)).map
            VoterRow.household_id).length := distinctKeys_length_le _
      _ = (voters.filter (fun v2 => v2.precinct_name == p)).length :=
            List.length_map _ _
  · simp only [List.length_map]
    exact List.length_pos.mpr (List.ne_nil_of_mem hvmem)

theorem createTurfsGo_turfs (u lid : ℕ) (nm : String) :
    ∀ (gs : List Group) (i : ℕ) (db : Db),
      ∀ t ∈ (createTurfsGo u lid nm gs i db).2.turfs,
        t ∈ db.turfs
        ∨ ∃ g ∈ gs, t.voter_count = g.ncids.length
            ∧ t.door_count = g.doors.length := by
  intro gs
  induction gs with
  | nil => intro i db t ht; exact Or.inl ht
  | cons g gs2 ih =>
    intro i db t ht
    simp only [createTurfsGo] at ht
    rcases ih (i + 1) _ t ht with h1 | ⟨g2, hg2, hc⟩
    · rcases List.mem_append.mp h1 with ha | hb
      · exact Or.inl ha
      · simp only [List.mem_singleton] at hb
        subst hb
        exact Or.inr ⟨g, by simp, rfl, rfl⟩
    · exact Or.inr ⟨g2, by simp [hg2], hc⟩

/-- C1 (amended): every turf auto-cut persists satisfies
`voter_count ≥ max(door_count, 1)`, and with method `cluster` (or
`grid`) additionally `door_count ≥ 1`; with method `precinct` a turf
with `door_count = 0` can be persisted (see the counterexample). -/
theorem claim_C1_amended (u : ℕ) (lido : Option ℕ) (dpt : ℚ) (method : String)
    (sh : List Door) (db : Db) :
    ∀ t ∈ (autoCut u lido dpt method sh db).2.turfs,
      t ∈ db.turfs
      ∨ (t.door_count ≤ t.voter_count ∧ 1 ≤ t.voter_count
         ∧ ((method = "cluster" ∨ method = "grid") → 1 ≤ t.door_count)) := by
  intro t ht
  match lido with
  | none => exact Or.inl ht
  | some lid =>
    by_cases hlid : lid = 0
    · simp only [autoCut, if_pos hlid] at ht
      exact Or.inl ht
    · simp only [autoCut, if_neg hlid] at ht
      cases hf : db.lists.find? (fun l => l.id == lid && l.user_id == u) with
      | none =>
        simp only [hf] at ht
        exact Or.inl ht
      | some l =>
        simp only [hf] at ht
        by_cases hv : listVoters db lid = []
        · rw [if_pos hv] at ht
          exact Or.inl ht
        · rw [if_neg hv] at ht
          rcases createTurfsGo_turfs u lid l.name _ 0 db t ht with h1 | ⟨g, hg, hc⟩
          · exact Or.inl h1
          · right
            by_cases hm : method = "cluster" ∨ method = "grid"
            · rw [if_pos hm] at hg
              have hd := clusterDoors_groups doorDist
                (buildHouseholds (listVoters db lid)) _ sh
                (buildHouseholds_ncids _) g hg
              refine ⟨?_, ?_, fun _ => ?_⟩
              · rw [hc.2, hc.1]
                exact hd.2
              · rw [hc.1]
                exact le_trans hd.1 hd.2
              · rw [hc.2]
                exact hd.1
            · rw [if_neg hm] at hg
              by_cases hp : method = "precinct"
              · rw [if_pos hp] at hg
                have hd := groupByPrecinct_groups _ g hg
                refine ⟨?_, ?_, fun hcontr => absurd hcontr hm⟩
                · rw [hc.1, hc.2]
                  exact hd.1
                · rw [hc.1]
                  exact hd.2
              · rw [if_neg hp] at hg
                simp at hg

/-- C1 counterexample: the precinct method persists a turf with
`door_count = 0` when every geocoded voter of a precinct lacks a
household key — here one such voter produces one turf with
`door_count = 0` and `voter_count = 1`, contradicting
"no turf with zero doors is ever created". -/
theorem claim_C1_counterexample :
    (autoCut 1 (some 1) 50 "precinct" [] c1Db).2.turfs.map TurfRow.door_count
      = [0]
    ∧ (autoCut 1 (some 1) 50 "precinct" [] c1Db).2.turfs.map
        TurfRow.voter_count = [1] :=
  ⟨rfl, rfl⟩

theorem headI_mem_of_ne_nil {α : Type} [Inhabited α] (l : List α)
    (h : l ≠ []) : l.headI ∈ l := by
  match l with
  | [] => exact absurd rfl h
  | x :: xs => simp

/-- C1 witness: a precinct auto-cut run that persists a turf; the
amended invariant applies to it. -/
theorem claim_C1_witness :
    (autoCut 1 (some 2) 50 "precinct" [] c1wDb).2.turfs ≠ []
    ∧ ((autoCut 1 (some 2) 50 "precinct" [] c1wDb).2.turfs.headI
          ∈ c1wDb.turfs
       ∨ ((autoCut 1 (some 2) 50 "precinct" [] c1wDb).2.turfs.headI.door_count
            ≤ (autoCut 1 (some 2) 50 "precinct" []
                c1wDb).2.turfs.headI.voter_count
          ∧ 1 ≤ (autoCut 1 (some 2) 50 "precinct" []
                c1wDb).2.turfs.headI.voter_count
          ∧ (("precinct" = "cluster" ∨ "precinct" = "grid") →
              1 ≤ (autoCut 1 (some 2) 50 "precinct" []
                c1wDb).2.turfs.headI.door_count))) := by
  have hne : (autoCut 1 (some 2) 50 "precinct" [] c1wDb).2.turfs ≠ [] := by
    decide
  exact ⟨hne, claim_C1_amended 1 (some 2) 50 "precinct" [] c1wDb _
    (headI_mem_of_ne_nil _ hne)⟩

end CivicVoice
